import Mathlib

/-!
Shallow embedding of the core of the Romantic-game-bot repository
(src/database.py and src/main.py) and verification of the frozen claims
about it.

The relational store is modelled as a list of rows (`List TaskRow`,
`List UserRow`); every SQL query of the source is translated into the
corresponding list filter / first-match lookup.  `ORDER BY` clauses are
dropped: every claim below is about membership or emptiness of a result
set, never about its order (the one consumer of an ordered result,
`get_next_task`, immediately applies a uniformly random choice).
SQL comparisons against a nullable column follow SQL semantics: a
comparison with NULL is not satisfied, modelled by `sqlEqInt` / `sqlNeInt`
on `Option Int`.  Timestamps are modelled as natural numbers.
The per-chat in-memory game state dictionary of main.py is modelled by the
structure `GameState`; its two inner dictionaries keyed by category and
gender strings are modelled as total functions from strings.
-/

/-- A row of the `tasks` table, with the column list of the SELECTs in
src/database.py (named TaskRow because Lean already reserves Task). -/
structure TaskRow where
  id : String
  text : String
  category : String
  gender : String
  game_mode : String
  task_type : String
  is_custom : Bool
  created_by : Option Int
  is_public : Bool
  moderation_status : String
  submitted_for_moderation_at : Option Nat
deriving DecidableEq

/-- The fields of a row of the `users` table that the verified operations
read. -/
structure UserRow where
  id : Int
  is_owner : Bool
  is_admin : Bool
  is_moderator : Bool
  is_blocked : Bool
  blocked_until : Option Nat
deriving DecidableEq

/-- SQL `col = v` on a nullable integer column: NULL compares unequal. -/
def sqlEqInt : Option Int → Int → Bool
  | none, _ => false
  | some x, v => x == v

/-- SQL `col != v` on a nullable integer column: NULL compares unequal,
so the WHERE condition is not satisfied. -/
def sqlNeInt : Option Int → Int → Bool
  | none, _ => false
  | some x, v => x != v

/-- `fetchone` of a SELECT by primary key on `users`. -/
def lookup_user (db : List UserRow) (user_id : Int) : Option UserRow :=
  db.find? fun u => u.id == user_id

/-- database.py `get_base_tasks_by_category_gender_and_type`: base, public
tasks of the exact (category, gender, game_type). -/
def get_base_tasks_by_category_gender_and_type (db : List TaskRow)
    (category gender game_type : String) : List TaskRow :=
  db.filter fun t =>
    t.category == category && t.gender == gender && t.game_mode == game_type &&
      t.task_type == "base" && t.is_public

/-- database.py `get_extended_tasks_by_type`: base public tasks of the
triple, followed by custom tasks of the triple that are approved or the
requester's own, excluding tasks rejected with a different owner.
The source substitutes `user_id or 0`, modelled by `Option.getD 0`. -/
def get_extended_tasks_by_type (db : List TaskRow)
    (category gender game_type : String) (user_id : Option Int) : List TaskRow :=
  let uid := user_id.getD 0
  let base_tasks := db.filter fun t =>
    t.game_mode == game_type && t.category == category && t.gender == gender &&
      t.task_type == "base" && t.is_public
  let user_tasks := db.filter fun t =>
    t.game_mode == game_type && t.category == category && t.gender == gender &&
      t.is_custom &&
      (t.moderation_status == "approved" || sqlEqInt t.created_by uid) &&
      !(t.moderation_status == "rejected" && sqlNeInt t.created_by uid)
  base_tasks ++ user_tasks

/-- database.py `get_task_by_id`. -/
def get_task_by_id (db : List TaskRow) (task_id : String) : Option TaskRow :=
  db.find? fun t => t.id == task_id

/-- database.py `delete_custom_task`: the guard SELECT requires the same
id, the requesting user as author, and `task_type = 'user_pending'`;
on success the DELETE removes every row with that id. -/
def delete_custom_task (db : List TaskRow) (task_id : String) (user_id : Int) :
    Bool × List TaskRow :=
  match db.find? (fun t =>
      t.id == task_id && sqlEqInt t.created_by user_id &&
        t.task_type == "user_pending") with
  | none => (false, db)
  | some _ => (true, db.filter fun t => !(t.id == task_id))

/-- database.py `submit_task_for_moderation`: the guard SELECT requires a
custom task whose status is not already pending; the UPDATE sets the
status to pending and stamps the submission time. -/
def submit_task_for_moderation (db : List TaskRow) (task_id : String) (now : Nat) :
    Bool × List TaskRow :=
  match db.find? (fun t =>
      t.id == task_id && t.is_custom && !(t.moderation_status == "pending")) with
  | none => (false, db)
  | some _ =>
    (true, db.map fun t =>
      if t.id == task_id then
        { t with moderation_status := "pending",
                 submitted_for_moderation_at := some now }
      else t)

/-- database.py `moderate_task`: the guard SELECT requires a custom task in
status pending; approve and reject run their UPDATEs, any other action
commits nothing; all three return True once the guard passed. -/
def moderate_task (db : List TaskRow) (task_id : String) (action : String)
    (moderator_id : Int) : Bool × List TaskRow :=
  match db.find? (fun t =>
      t.id == task_id && t.is_custom && t.moderation_status == "pending") with
  | none => (false, db)
  | some _ =>
    if action == "approve" then
      (true, db.map fun t =>
        if t.id == task_id then
          { t with moderation_status := "approved", is_public := true,
                   task_type := "user_approved" }
        else t)
    else if action == "reject" then
      (true, db.map fun t =>
        if t.id == task_id then
          { t with moderation_status := "rejected", is_public := false,
                   task_type := "user_pending" }
        else t)
    else
      (true, db)

/-- database.py `is_user_blocked`: a pure read (the source runs no UPDATE),
returned together with the unchanged store to make that explicit.
Timestamps are naturals, so the source's parse-failure fallback branch has
no counterpart. -/
def is_user_blocked (db : List UserRow) (now : Nat) (user_id : Int) :
    Bool × List UserRow :=
  match lookup_user db user_id with
  | none => (false, db)
  | some u =>
    if !u.is_blocked then (false, db)
    else
      match u.blocked_until with
      | none => (true, db)
      | some until_ts => (decide (now < until_ts), db)

/-- database.py `get_admin_level`: the fixed reserved owner identity (the
sentinel id -1 standing for the hard-coded owner account) resolves before
any row is read; otherwise the stored flags decide in order
owner, admin, moderator, else user. -/
def get_admin_level (db : List UserRow) (user_id : Int) : String :=
  if user_id == -1 then "owner"
  else
    match lookup_user db user_id with
    | some u =>
      if u.is_owner then "owner"
      else if u.is_admin then "admin"
      else if u.is_moderator then "moderator"
      else "user"
    | none => "user"

/-- An entry of the in-memory player roster of main.py. -/
structure Player where
  name : String
  gender : String
  emoji : String
deriving DecidableEq

/-- The per-chat in-memory game state dictionary created by
`quick_start_game` in main.py.  The dictionaries keyed by category and
gender strings are modelled as total functions; the source initialises
them for the four categories and three gender buckets only. -/
structure GameState where
  players : List Player
  current_player_index : Nat
  current_category : String
  used_tasks : String → String → List String
  tasks_completed_per_category : String → Nat
  is_game_started : Bool
  setup_step : String
  game_mode : String
  game_type : String
  current_task : Option TaskRow

/-- The default roster templates of main.py `quick_start_game`: 2couples is
four players alternating gender, fmf and mfm are three players, any other
string falls back to the 2couples roster. -/
def default_players (game_type : String) : List Player :=
  if game_type == "2couples" then
    [⟨"Парень1", "male", "👨🏻‍🦱"⟩, ⟨"Девушка1", "female", "👩🏻‍🦱"⟩,
     ⟨"Парень2", "male", "👨🏻‍🦰"⟩, ⟨"Девушка2", "female", "👩🏻‍🦰"⟩]
  else if game_type == "fmf" then
    [⟨"Девушка1", "female", "👩🏻‍🦱"⟩, ⟨"Парень", "male", "👨🏻‍🦱"⟩,
     ⟨"Девушка2", "female", "👩🏻‍🦰"⟩]
  else if game_type == "mfm" then
    [⟨"Парень1", "male", "👨🏻‍🦱"⟩, ⟨"Девушка", "female", "👩🏻‍🦱"⟩,
     ⟨"Парень2", "male", "👨🏻‍🦰"⟩]
  else
    [⟨"Парень1", "male", "👨🏻‍🦱"⟩, ⟨"Девушка1", "female", "👩🏻‍🦱"⟩,
     ⟨"Парень2", "male", "👨🏻‍🦰"⟩, ⟨"Девушка2", "female", "👩🏻‍🦰"⟩]

/-- main.py `quick_start_game`: session initialisation.  The source keeps a
previously chosen game mode (`saved_game_mode or 'basic'`, modelled by
`Option.getD`). -/
def quick_start_game (game_type : String) (saved_game_mode : Option String) :
    GameState :=
  { players := default_players game_type
    current_player_index := 0
    current_category := "acquaintance"
    used_tasks := fun _ _ => []
    tasks_completed_per_category := fun _ => 0
    is_game_started := true
    setup_step := "completed"
    game_mode := saved_game_mode.getD "basic"
    game_type := game_type
    current_task := none }

/-- The player count used by the turn advance of main.py
`handle_task_completed`: 4 for 2couples, otherwise 3. -/
def players_count_for (game_type : String) : Nat :=
  if game_type == "2couples" then 4 else 3

/-- main.py `handle_task_completed` (also `handle_skip_task`, which calls
it unchanged): the state mutation of a turn advance.  Returns `none` on
the source's early-error paths (no current task, or indexing the roster
out of range); otherwise the new state and `true` exactly when the
category-completion modal is shown instead of drawing the next task. -/
def handle_task_completed (gs : GameState) : Option (GameState × Bool) :=
  match gs.current_task with
  | none => none
  | some current_task =>
    let bucket := if current_task.gender == "common" then some "common"
      else match gs.players.get? gs.current_player_index with
        | some current_player => some current_player.gender
        | none => none
    match bucket with
    | none => none
    | some b =>
      let cat := gs.current_category
      let used1 : String → String → List String := fun c g =>
        if c == cat && g == b then gs.used_tasks c g ++ [current_task.id]
        else gs.used_tasks c g
      let done1 : String → Nat := fun c =>
        if c == cat then gs.tasks_completed_per_category c + 1
        else gs.tasks_completed_per_category c
      let n := players_count_for gs.game_type
      let gs1 := { gs with
        used_tasks := used1
        tasks_completed_per_category := done1
        current_player_index := (gs.current_player_index + 1) % n }
      some (gs1, decide (done1 cat ≥ 20))

/-- main.py `get_next_task`, up to the final random draw: the list
`all_available` the source draws from — the (mode-dependent) fetch for the
acting player's gender joined with the fetch for common, each minus the
ids already used in its bucket.  `none` when the source would index the
roster out of range. -/
def next_task_pool (db : List TaskRow) (gs : GameState) (user_id : Option Int) :
    Option (List TaskRow) :=
  match gs.players.get? gs.current_player_index with
  | none => none
  | some current_player =>
    let category := gs.current_category
    let all_tasks :=
      if gs.game_mode == "basic" then
        get_base_tasks_by_category_gender_and_type db category
          current_player.gender gs.game_type
      else
        get_extended_tasks_by_type db category current_player.gender
          gs.game_type user_id
    let common_tasks :=
      if gs.game_mode == "basic" then
        get_base_tasks_by_category_gender_and_type db category "common"
          gs.game_type
      else
        get_extended_tasks_by_type db category "common" gs.game_type user_id
    let used_gender_tasks := gs.used_tasks category current_player.gender
    let used_common_tasks := gs.used_tasks category "common"
    let available_tasks := all_tasks.filter fun t =>
      !(used_gender_tasks.contains t.id)
    let available_common := common_tasks.filter fun t =>
      !(used_common_tasks.contains t.id)
    some (available_tasks ++ available_common)

/-- main.py `get_next_task`: the source returns None exactly when the pool
is empty and otherwise `random.choice(all_available)`; the random draw is
modelled by an arbitrary choice function on nonempty lists. -/
def get_next_task (db : List TaskRow) (gs : GameState) (user_id : Option Int)
    (choice : List TaskRow → TaskRow) : Option (Option TaskRow) :=
  match next_task_pool db gs user_id with
  | none => none
  | some pool => if pool.isEmpty then some none else some (some (choice pool))

/-- Python `str.startswith`, computed on the character lists of the two
strings so that the kernel can evaluate it. -/
def starts_with (s p : String) : Bool :=
  p.data.isPrefixOf s.data

/-- main.py `handle_submit_moderation`: the user-facing submit operation.
Gates in source order: the task id must carry a custom/user id shape,
the task must exist, be custom, be the caller's own, and not already be
pending or approved; then database.py `submit_task_for_moderation` runs. -/
def handle_submit_moderation (db : List TaskRow) (task_id : String)
    (from_user : Int) (now : Nat) : Bool × List TaskRow :=
  if !(starts_with task_id "custom_" || starts_with task_id "user_") then
    (false, db)
  else
    match get_task_by_id db task_id with
    | none => (false, db)
    | some task =>
      if !task.is_custom then (false, db)
      else if !(task.created_by == some from_user) then (false, db)
      else if task.moderation_status == "pending" then (false, db)
      else if task.moderation_status == "approved" then (false, db)
      else submit_task_for_moderation db task_id now

/-- The session states reachable from `quick_start_game` by drawing tasks
(main.py `start_game_round` stores the drawn task in `current_task`) and
by turn advances (`handle_task_completed` / `handle_skip_task`). -/
inductive ReachableState (game_type : String) (saved_game_mode : Option String) :
    GameState → Prop
  | init : ReachableState game_type saved_game_mode
      (quick_start_game game_type saved_game_mode)
  | draw (gs : GameState) (t : TaskRow) :
      ReachableState game_type saved_game_mode gs →
      ReachableState game_type saved_game_mode { gs with current_task := some t }
  | advance (gs gs1 : GameState) (sig : Bool) :
      ReachableState game_type saved_game_mode gs →
      handle_task_completed gs = some (gs1, sig) →
      ReachableState game_type saved_game_mode gs1

/-! Concrete rows and states used to instantiate the theorems below. -/

/-- A base, public task in the (flirt, male, 2couples) pool. -/
def task_base_b1 : TaskRow :=
  ⟨"b1", "base one", "flirt", "male", "2couples", "base", false, none, true,
    "approved", none⟩

/-- A second base, public task in the (flirt, male, 2couples) pool. -/
def task_base_b2 : TaskRow :=
  ⟨"b2", "base two", "flirt", "male", "2couples", "base", false, none, true,
    "approved", none⟩

/-- A base, public, common-gender task in acquaintance. -/
def task_common_c1 : TaskRow :=
  ⟨"c1", "common one", "acquaintance", "common", "2couples", "base", false, none,
    true, "approved", none⟩

/-- A custom task of user 7 that a moderator has rejected: the source left
its task_type at user_pending. -/
def task_rejected_7 : TaskRow :=
  ⟨"custom_9", "rejected", "flirt", "male", "2couples", "user_pending", true,
    some 7, false, "rejected", none⟩

/-- A custom task of user 3 that has been approved and published. -/
def task_approved_3 : TaskRow :=
  ⟨"custom_1", "approved", "flirt", "male", "2couples", "user_approved", true,
    some 3, true, "approved", some 2⟩

/-- A custom task of user 3 waiting in the moderation queue. -/
def task_pending_3 : TaskRow :=
  ⟨"custom_2", "pending", "flirt", "male", "2couples", "user_pending", true,
    some 3, false, "pending", some 4⟩

/-- A custom draft of user 5, not yet submitted. -/
def task_draft_5 : TaskRow :=
  ⟨"custom_5", "draft five", "flirt", "male", "2couples", "user_pending", true,
    some 5, false, "draft", none⟩

/-- A custom draft of user 7, not yet submitted. -/
def task_draft_7 : TaskRow :=
  ⟨"custom_7", "draft seven", "flirt", "male", "2couples", "user_pending", true,
    some 7, false, "draft", none⟩

/-- A stored moderator with no block record. -/
def user_mod_5 : UserRow := ⟨5, false, false, true, false, none⟩

/-- A user under a temporary block that runs out at time 50. -/
def user_blocked_8 : UserRow := ⟨8, false, false, false, true, some 50⟩

/-- The first player of the 2couples roster. -/
def player_m : Player := ⟨"Парень1", "male", "👨🏻‍🦱"⟩

/-- A 2couples session in category flirt in which both flirt/male base
tasks have already been drawn. -/
def gs_flirt_used : GameState :=
  { quick_start_game "2couples" none with
      current_category := "flirt"
      used_tasks := fun c g => if c == "flirt" && g == "male" then ["b1", "b2"] else [] }

/-- A fresh 2couples session whose pending task is a common-gender task,
with 19 acquaintance completions already counted. -/
def gs_with_common_task : GameState :=
  { quick_start_game "2couples" none with
      current_task := some task_common_c1
      tasks_completed_per_category := fun c => if c == "acquaintance" then 19 else 0 }

/-- A deterministic stand-in for the random draw of `get_next_task`. -/
def first_choice : List TaskRow → TaskRow := fun l => l.headD task_base_b1

/-! Helper lemmas shared by the claim theorems. -/

/-- If a predicate `q` refines `p`, the first `p`-match also satisfying `q`
is the first `q`-match. -/
theorem find?_of_stronger {α : Type} {p q : α → Bool} {l : List α} {a : α}
    (himp : ∀ x, q x = true → p x = true) (h : l.find? p = some a)
    (hq : q a = true) : l.find? q = some a := by
  induction l with
  | nil => simp at h
  | cons b l ih =>
    by_cases hb : p b = true
    · rw [List.find?_cons_of_pos _ hb] at h
      cases h
      exact List.find?_cons_of_pos _ hq
    · have hqb : ¬ q b = true := fun hqb => hb (himp b hqb)
      rw [List.find?_cons_of_neg _ (by simpa using hb)] at h
      rw [List.find?_cons_of_neg _ (by simpa using hqb)]
      exact ih h

/-- `sqlEqInt` holds exactly on the matching non-NULL value. -/
theorem sqlEqInt_eq_true_iff (o : Option Int) (v : Int) :
    sqlEqInt o v = true ↔ o = some v := by
  cases o <;> simp [sqlEqInt]

/-- `sqlNeInt` fails exactly on NULL or the matching value. -/
theorem sqlNeInt_eq_false_iff (o : Option Int) (v : Int) :
    sqlNeInt o v = false ↔ o = none ∨ o = some v := by
  cases o <;> simp [sqlNeInt]

/-- Claim C4: the moderate operation succeeds only on a custom task in
status pending; a successful approve sets status approved and makes the
task visible, a successful reject sets status rejected and hides it; and
when every task stored under the id is already approved, approve returns
false and leaves the store entirely unchanged. -/
theorem claim_C4_moderate_only_pending (db : List TaskRow) (task_id : String)
    (moderator_id : Int) :
    (∀ action : String,
        (moderate_task db task_id action moderator_id).1 = true →
        ∃ t ∈ db, t.id = task_id ∧ t.is_custom = true ∧
          t.moderation_status = "pending")
    ∧ ((moderate_task db task_id "approve" moderator_id).1 = true →
        (moderate_task db task_id "approve" moderator_id).2 =
          db.map fun t => if t.id == task_id then
            { t with moderation_status := "approved", is_public := true,
                     task_type := "user_approved" } else t)
    ∧ ((moderate_task db task_id "reject" moderator_id).1 = true →
        (moderate_task db task_id "reject" moderator_id).2 =
          db.map fun t => if t.id == task_id then
            { t with moderation_status := "rejected", is_public := false,
                     task_type := "user_pending" } else t)
    ∧ ((∀ t ∈ db, t.id = task_id → t.moderation_status = "approved") →
        moderate_task db task_id "approve" moderator_id = (false, db)) := by
  refine ⟨?_, ?_, ?_, ?_⟩
  · intro action hsucc
    unfold moderate_task at hsucc
    cases hfind : db.find? (fun t =>
        t.id == task_id && t.is_custom && t.moderation_status == "pending") with
    | none => rw [hfind] at hsucc; simp at hsucc
    | some t =>
      have hp := List.find?_some hfind
      have hm := List.mem_of_find?_eq_some hfind
      simp only [Bool.and_eq_true, beq_iff_eq] at hp
      exact ⟨t, hm, hp.1.1, hp.1.2, hp.2⟩
  · intro hsucc
    unfold moderate_task at hsucc ⊢
    cases hfind : db.find? (fun t =>
        t.id == task_id && t.is_custom && t.moderation_status == "pending") with
    | none => rw [hfind] at hsucc; simp at hsucc
    | some t => simp
  · intro hsucc
    unfold moderate_task at hsucc ⊢
    cases hfind : db.find? (fun t =>
        t.id == task_id && t.is_custom && t.moderation_status == "pending") with
    | none => rw [hfind] at hsucc; simp at hsucc
    | some t => simp
  · intro hall
    have hfind : db.find? (fun t =>
        t.id == task_id && t.is_custom && t.moderation_status == "pending") = none := by
      rw [List.find?_eq_none]
      intro a ha hpa
      simp only [Bool.and_eq_true, beq_iff_eq] at hpa
      obtain ⟨⟨hid, -⟩, hpend⟩ := hpa
      rw [hall a ha hid] at hpend
      exact absurd hpend (by decide)
    unfold moderate_task
    rw [hfind]


/-- Witness for C4: approving the already-approved task custom_1 fails and
leaves the store unchanged. -/
theorem claim_C4_witness :
    moderate_task [task_approved_3] "custom_1" "approve" 9 = (false, [task_approved_3]) :=
  (claim_C4_moderate_only_pending [task_approved_3] "custom_1" 9).2.2.2 (by decide)

/-- Claim C10: moderating a pending custom task with an action that is
neither approve nor reject returns success while changing nothing. -/
theorem claim_C10_moderate_unknown_action (db : List TaskRow)
    (task_id action : String) (moderator_id : Int) (t : TaskRow)
    (hfind : get_task_by_id db task_id = some t)
    (hc : t.is_custom = true) (hp : t.moderation_status = "pending")
    (ha1 : action ≠ "approve") (ha2 : action ≠ "reject") :
    moderate_task db task_id action moderator_id = (true, db) := by
  unfold get_task_by_id at hfind
  have hq : (fun x : TaskRow =>
      x.id == task_id && x.is_custom && x.moderation_status == "pending") t = true := by
    have hid := List.find?_some hfind
    simp only [beq_iff_eq] at hid
    simp [hid, hc, hp]
  have hfind2 : db.find? (fun x : TaskRow =>
      x.id == task_id && x.is_custom && x.moderation_status == "pending") = some t :=
    find?_of_stronger (fun x hx => by
      simp only [Bool.and_eq_true] at hx
      exact hx.1.1) hfind hq
  unfold moderate_task
  rw [hfind2]
  simp [ha1, ha2]

/-- Witness for C10: the unknown action "postpone" on the pending task
custom_2 returns true and leaves the store as it was. -/
theorem claim_C10_witness :
    moderate_task [task_pending_3] "custom_2" "postpone" 9 = (true, [task_pending_3]) :=
  claim_C10_moderate_unknown_action [task_pending_3] "custom_2" "postpone" 9
    task_pending_3 (by decide) (by decide) (by decide) (by decide) (by decide)

/-- Counterexample for C9: `delete_custom_task` also succeeds on a rejected
task owned by the requester, although the claim allows success only for
draft or pending tasks. -/
theorem claim_C9_counterexample :
    (delete_custom_task [task_rejected_7] "custom_9" 7).1 = true ∧
    task_rejected_7.is_custom = true ∧
    task_rejected_7.moderation_status = "rejected" ∧
    task_rejected_7.moderation_status ≠ "draft" ∧
    task_rejected_7.moderation_status ≠ "pending" := by decide

/-- Claim C9 as amended: `delete_custom_task` returns true exactly when a
stored task has the requested id, the requester as author, and task_type
user_pending — that is, it is custom and still draft, pending or rejected,
not yet approved; on success every row with the id is removed, on failure
the store is unchanged. -/
theorem claim_C9_amended_delete (db : List TaskRow) (task_id : String)
    (user_id : Int) :
    ((delete_custom_task db task_id user_id).1 = true ↔
      ∃ t ∈ db, t.id = task_id ∧ t.created_by = some user_id ∧
        t.task_type = "user_pending")
    ∧ ((delete_custom_task db task_id user_id).1 = true →
        (delete_custom_task db task_id user_id).2 =
          db.filter fun t => !(t.id == task_id))
    ∧ ((delete_custom_task db task_id user_id).1 = false →
        (delete_custom_task db task_id user_id).2 = db) := by
  unfold delete_custom_task
  cases hfind : db.find? (fun t =>
      t.id == task_id && sqlEqInt t.created_by user_id &&
        t.task_type == "user_pending") with
  | none =>
    rw [List.find?_eq_none] at hfind
    refine ⟨?_, by simp, by simp⟩
    dsimp only
    refine ⟨fun h => absurd h (by decide), ?_⟩
    rintro ⟨t, ht, h1, h2, h3⟩
    have hpred : (t.id == task_id && sqlEqInt t.created_by user_id &&
        t.task_type == "user_pending") = true := by
      rw [h1, h2, h3]
      simp [sqlEqInt]
    exact absurd hpred (hfind t ht)
  | some t =>
    have hp := List.find?_some hfind
    have hm := List.mem_of_find?_eq_some hfind
    simp only [Bool.and_eq_true, beq_iff_eq, sqlEqInt_eq_true_iff] at hp
    refine ⟨?_, by simp, by simp⟩
    simp only [true_iff]
    exact ⟨t, hm, hp.1.1, hp.1.2, hp.2⟩

/-- Witness for the amended C9: deleting the rejected task custom_9 as its
author empties the store. -/
theorem claim_C9_amended_witness :
    (delete_custom_task [task_rejected_7] "custom_9" 7).2 = [] := by
  rw [(claim_C9_amended_delete [task_rejected_7] "custom_9" 7).2.1 (by decide)]
  decide

/-- Once the submit handler's gates have passed, the store-level submit
succeeds and stamps every row with the id pending. -/
theorem submit_succeeds_of_gates (db : List TaskRow) (task_id : String)
    (now : Nat) (task : TaskRow)
    (hfind : db.find? (fun t : TaskRow => t.id == task_id) = some task)
    (hc : task.is_custom = true) (hnp : task.moderation_status ≠ "pending") :
    submit_task_for_moderation db task_id now =
      (true, db.map fun t => if t.id == task_id then
        { t with moderation_status := "pending",
                 submitted_for_moderation_at := some now } else t) := by
  have hq : (fun x : TaskRow =>
      x.id == task_id && x.is_custom && !(x.moderation_status == "pending")) task = true := by
    have hid := List.find?_some hfind
    simp only [beq_iff_eq] at hid
    simp [hid, hc, hnp]
  have hfind2 : db.find? (fun x : TaskRow =>
      x.id == task_id && x.is_custom && !(x.moderation_status == "pending")) = some task :=
    find?_of_stronger (fun x hx => by
      simp only [Bool.and_eq_true] at hx
      exact hx.1.1) hfind hq
  unfold submit_task_for_moderation
  rw [hfind2]

/-- Claim C5: submitting through the submit handler succeeds exactly from
status draft or rejected (the id must carry a custom shape and the task
must be the caller's own custom task); success stamps the task pending
with the submission time; an approved task is always refused with the
store unchanged, so approved can never reach pending via submit. -/
theorem claim_C5_submit_moderation (db : List TaskRow) (task_id : String)
    (from_user : Int) (now : Nat) (task : TaskRow)
    (hfind : get_task_by_id db task_id = some task)
    (hstatus : task.moderation_status = "draft" ∨ task.moderation_status = "pending" ∨
      task.moderation_status = "approved" ∨ task.moderation_status = "rejected") :
    ((handle_submit_moderation db task_id from_user now).1 = true ↔
      ((starts_with task_id "custom_" || starts_with task_id "user_") = true ∧
        task.is_custom = true ∧ task.created_by = some from_user ∧
        (task.moderation_status = "draft" ∨ task.moderation_status = "rejected")))
    ∧ ((handle_submit_moderation db task_id from_user now).1 = true →
        (handle_submit_moderation db task_id from_user now).2 =
          db.map fun t => if t.id == task_id then
            { t with moderation_status := "pending",
                     submitted_for_moderation_at := some now } else t)
    ∧ (task.moderation_status = "approved" →
        handle_submit_moderation db task_id from_user now = (false, db)) := by
  have hfind' : db.find? (fun t : TaskRow => t.id == task_id) = some task := hfind
  unfold handle_submit_moderation
  rw [hfind]
  cases hpref : (starts_with task_id "custom_" || starts_with task_id "user_") with
  | false => simp
  | true =>
    simp only [Bool.not_true, Bool.false_eq_true, if_false]
    cases hc : task.is_custom with
    | false => simp
    | true =>
      simp only [Bool.not_true, Bool.false_eq_true, if_false]
      cases hown : (task.created_by == some from_user) with
      | false =>
        have hown' : task.created_by ≠ some from_user := by simpa using hown
        simp [hown']
      | true =>
        have hown' : task.created_by = some from_user := by simpa using hown
        simp only [Bool.not_true, Bool.false_eq_true, if_false]
        cases hpend : (task.moderation_status == "pending") with
        | true =>
          have hpend' : task.moderation_status = "pending" := by simpa using hpend
          simp [hpend']
        | false =>
          have hpend' : task.moderation_status ≠ "pending" := by simpa using hpend
          cases happr : (task.moderation_status == "approved") with
          | true =>
            have happr' : task.moderation_status = "approved" := by simpa using happr
            simp [happr', hpend']
          | false =>
            have happr' : task.moderation_status ≠ "approved" := by simpa using happr
            have hdr : task.moderation_status = "draft" ∨ task.moderation_status = "rejected" := by
              rcases hstatus with h | h | h | h
              · exact Or.inl h
              · exact absurd h hpend'
              · exact absurd h happr'
              · exact Or.inr h
            have heq := submit_succeeds_of_gates db task_id now task hfind' hc hpend'
            simp [heq, hown', hdr, happr']

/-- Witness for C5: user 5 successfully submits their draft custom_5. -/
theorem claim_C5_witness :
    (handle_submit_moderation [task_draft_5] "custom_5" 5 100).1 = true :=
  (claim_C5_submit_moderation [task_draft_5] "custom_5" 5 100 task_draft_5
    (by decide) (by decide)).1.mpr (by decide)

/-- Claim C6: under the store invariants that base rows are public and not
custom, a task of the requested triple is returned by the extended fetch
exactly when it is base, or custom and approved-or-owned by the requester;
no returned custom task is rejected with a different owner; and the
requester's own draft and pending tasks of the triple are always
returned. -/
theorem claim_C6_extended_fetch (db : List TaskRow)
    (category gender game_type : String) (u : Int)
    (hbase_pub : ∀ t ∈ db, t.task_type = "base" → t.is_public = true)
    (hbase_not_custom : ∀ t ∈ db, t.task_type = "base" → t.is_custom = false) :
    (∀ t ∈ db, t.category = category → t.gender = gender →
      t.game_mode = game_type →
      (t ∈ get_extended_tasks_by_type db category gender game_type (some u) ↔
        (t.task_type = "base" ∨
          (t.is_custom = true ∧
            (t.moderation_status = "approved" ∨ t.created_by = some u)))))
    ∧ (∀ t ∈ get_extended_tasks_by_type db category gender game_type (some u),
        t.is_custom = true → t.moderation_status = "rejected" →
        t.created_by = some u)
    ∧ (∀ t ∈ db, t.category = category → t.gender = gender →
        t.game_mode = game_type → t.is_custom = true → t.created_by = some u →
        (t.moderation_status = "draft" ∨ t.moderation_status = "pending") →
        t ∈ get_extended_tasks_by_type db category gender game_type (some u)) := by
  have hmem : ∀ t : TaskRow,
      t ∈ get_extended_tasks_by_type db category gender game_type (some u) ↔
        (t ∈ db ∧ ((t.game_mode == game_type && t.category == category &&
            t.gender == gender && t.task_type == "base" && t.is_public) = true)) ∨
        (t ∈ db ∧ ((t.game_mode == game_type && t.category == category &&
            t.gender == gender && t.is_custom &&
            (t.moderation_status == "approved" || sqlEqInt t.created_by u) &&
            !(t.moderation_status == "rejected" && sqlNeInt t.created_by u)) = true)) := by
    intro t
    unfold get_extended_tasks_by_type
    simp only [Option.getD_some, List.mem_append, List.mem_filter]
  refine ⟨?_, ?_, ?_⟩
  · intro t ht h1 h2 h3
    rw [hmem t]
    constructor
    · rintro (⟨-, hb⟩ | ⟨-, hc⟩)
      · simp only [Bool.and_eq_true, beq_iff_eq] at hb
        exact Or.inl hb.1.2
      · simp only [Bool.and_eq_true, Bool.or_eq_true, beq_iff_eq,
          sqlEqInt_eq_true_iff] at hc
        exact Or.inr ⟨hc.1.1.2, hc.1.2⟩
    · rintro (hb | ⟨hcu, hor⟩)
      · refine Or.inl ⟨ht, ?_⟩
        simp [h1, h2, h3, hb, hbase_pub t ht hb]
      · refine Or.inr ⟨ht, ?_⟩
        have hpos : (t.moderation_status == "approved" ||
            sqlEqInt t.created_by u) = true := by
          rcases hor with ha | hcr
          · simp [ha]
          · simp [hcr, sqlEqInt]
        have hnot : (t.moderation_status == "rejected" &&
            sqlNeInt t.created_by u) = false := by
          by_cases hrej : t.moderation_status = "rejected"
          · rcases hor with ha | hcr
            · rw [ha] at hrej
              exact absurd hrej (by decide)
            · simp [hcr, sqlNeInt]
          · simp [hrej]
        simp [h1, h2, h3, hcu, hpos, hnot]
  · intro t ht hcu hrej
    rw [hmem t] at ht
    rcases ht with ⟨htdb, hb⟩ | ⟨htdb, hc⟩
    · simp only [Bool.and_eq_true, beq_iff_eq] at hb
      have hnc := hbase_not_custom t htdb hb.1.2
      rw [hcu] at hnc
      exact absurd hnc (by decide)
    · simp only [Bool.and_eq_true, Bool.or_eq_true, beq_iff_eq,
        sqlEqInt_eq_true_iff] at hc
      rcases hc.1.2 with ha | hcr
      · rw [hrej] at ha
        exact absurd ha (by decide)
      · exact hcr
  · intro t ht h1 h2 h3 hcu hcr hst
    rw [hmem t]
    refine Or.inr ⟨ht, ?_⟩
    have hpos : (t.moderation_status == "approved" ||
        sqlEqInt t.created_by u) = true := by
      simp [hcr, sqlEqInt]
    have hnot : (t.moderation_status == "rejected" &&
        sqlNeInt t.created_by u) = false := by
      rcases hst with h | h <;> simp [h]
    simp [h1, h2, h3, hcu, hpos, hnot]

/-- Witness for C6: user 7's own draft custom_7 is returned by the extended
fetch for its triple. -/
theorem claim_C6_witness :
    task_draft_7 ∈ get_extended_tasks_by_type [task_base_b1, task_draft_7]
      "flirt" "male" "2couples" (some 7) :=
  (claim_C6_extended_fetch [task_base_b1, task_draft_7] "flirt" "male"
    "2couples" 7 (by decide) (by decide)).2.2 task_draft_7 (by decide)
    (by decide) (by decide) (by decide) (by decide) (by decide) (by decide)

/-- Claim C7: the block check is false without a record or when not
blocked, true when blocked forever, and with a blocked-until timestamp
true exactly while the current time is earlier; the record is never
mutated, so an expired temporary block merely evaluates to false. -/
theorem claim_C7_block_check (db : List UserRow) (now : Nat) (user_id : Int) :
    (lookup_user db user_id = none →
      is_user_blocked db now user_id = (false, db))
    ∧ (∀ u, lookup_user db user_id = some u → u.is_blocked = false →
        is_user_blocked db now user_id = (false, db))
    ∧ (∀ u, lookup_user db user_id = some u → u.is_blocked = true →
        u.blocked_until = none → is_user_blocked db now user_id = (true, db))
    ∧ (∀ u ts, lookup_user db user_id = some u → u.is_blocked = true →
        u.blocked_until = some ts →
        ((is_user_blocked db now user_id).1 = true ↔ now < ts))
    ∧ ((is_user_blocked db now user_id).2 = db) := by
  refine ⟨?_, ?_, ?_, ?_, ?_⟩
  · intro h
    unfold is_user_blocked
    rw [h]
  · intro u h hb
    unfold is_user_blocked
    rw [h]
    simp [hb]
  · intro u h hb hu
    unfold is_user_blocked
    rw [h]
    simp [hb, hu]
  · intro u ts h hb hu
    unfold is_user_blocked
    rw [h]
    simp [hb, hu]
  · unfold is_user_blocked
    cases h : lookup_user db user_id with
    | none => rfl
    | some u =>
      cases hb : u.is_blocked with
      | false => simp [hb]
      | true =>
        cases hu : u.blocked_until with
        | none => simp [hb, hu]
        | some ts => simp [hb, hu]

/-- Witness for C7: at time 10, user 8 blocked until 50 counts as
blocked. -/
theorem claim_C7_witness :
    (is_user_blocked [user_mod_5, user_blocked_8] 10 8).1 = true :=
  ((claim_C7_block_check [user_mod_5, user_blocked_8] 10 8).2.2.2.1
    user_blocked_8 50 (by decide) (by decide) (by decide)).mpr (by decide)

/-- Claim C8: the reserved owner identity always resolves to owner, even
over an empty store; any other id resolves through the stored flags in the
order owner, admin, moderator, and to user when no flag or no row is
present. -/
theorem claim_C8_rank_resolution (db : List UserRow) (user_id : Int) :
    get_admin_level db (-1) = "owner"
    ∧ (∀ u, user_id ≠ -1 → lookup_user db user_id = some u →
        get_admin_level db user_id =
          if u.is_owner then "owner"
          else if u.is_admin then "admin"
          else if u.is_moderator then "moderator"
          else "user")
    ∧ (user_id ≠ -1 → lookup_user db user_id = none →
        get_admin_level db user_id = "user") := by
  refine ⟨?_, ?_, ?_⟩
  · unfold get_admin_level
    simp
  · intro u hne h
    unfold get_admin_level
    have hbe : ((user_id == -1) : Bool) = false := by simpa using hne
    simp [hbe, h]
  · intro hne h
    unfold get_admin_level
    have hbe : ((user_id == -1) : Bool) = false := by simpa using hne
    simp [hbe, h]

/-- Witness for C8: with only a stored moderator row, the sentinel resolves
to owner even though it has no row, and the moderator's flags resolve to
moderator. -/
theorem claim_C8_witness :
    get_admin_level [user_mod_5] (-1) = "owner" ∧
    get_admin_level [user_mod_5] 5 = "moderator" := by
  refine ⟨(claim_C8_rank_resolution [user_mod_5] 5).1, ?_⟩
  have h := (claim_C8_rank_resolution [user_mod_5] 5).2.1 user_mod_5
    (by decide) (by decide)
  rw [h]
  decide

/-- Reduction of `handle_task_completed` when the pending task targets
common: the id goes into the common bucket of the current category. -/
theorem handle_eq_common (gs : GameState) (ct : TaskRow)
    (htask : gs.current_task = some ct)
    (hg : (ct.gender == "common") = true) :
    handle_task_completed gs = some ({ gs with
        used_tasks := fun c g =>
          if c == gs.current_category && g == "common" then
            gs.used_tasks c g ++ [ct.id]
          else gs.used_tasks c g
        tasks_completed_per_category := fun c =>
          if c == gs.current_category then
            gs.tasks_completed_per_category c + 1
          else gs.tasks_completed_per_category c
        current_player_index :=
          (gs.current_player_index + 1) % players_count_for gs.game_type },
      decide (gs.tasks_completed_per_category gs.current_category + 1 ≥ 20)) := by
  unfold handle_task_completed
  rw [htask]
  dsimp only
  rw [hg]
  simp

/-- Reduction of `handle_task_completed` when the pending task targets a
specific gender: the id goes into the acting player's gender bucket. -/
theorem handle_eq_gender (gs : GameState) (ct : TaskRow) (p : Player)
    (htask : gs.current_task = some ct)
    (hplayer : gs.players.get? gs.current_player_index = some p)
    (hg : (ct.gender == "common") = false) :
    handle_task_completed gs = some ({ gs with
        used_tasks := fun c g =>
          if c == gs.current_category && g == p.gender then
            gs.used_tasks c g ++ [ct.id]
          else gs.used_tasks c g
        tasks_completed_per_category := fun c =>
          if c == gs.current_category then
            gs.tasks_completed_per_category c + 1
          else gs.tasks_completed_per_category c
        current_player_index :=
          (gs.current_player_index + 1) % players_count_for gs.game_type },
      decide (gs.tasks_completed_per_category gs.current_category + 1 ≥ 20)) := by
  unfold handle_task_completed
  rw [htask]
  dsimp only
  rw [hg, hplayer]
  simp

/-- Claim C1: a turn advance on an active session with a current task
appends the task id to used_tasks of the current category under the bucket
common (for a common task) or the acting player's gender, increments the
category's completed counter by exactly one, advances the player index
modulo the game type's player count, and signals the category-completion
modal exactly when the incremented counter reaches 20. -/
theorem claim_C1_turn_advance (gs : GameState) (ct : TaskRow) (p : Player)
    (htask : gs.current_task = some ct)
    (hplayer : gs.players.get? gs.current_player_index = some p) :
    ∃ gs1 sig, handle_task_completed gs = some (gs1, sig) ∧
      gs1.used_tasks gs.current_category
          (if ct.gender = "common" then "common" else p.gender) =
        gs.used_tasks gs.current_category
          (if ct.gender = "common" then "common" else p.gender) ++ [ct.id] ∧
      gs1.tasks_completed_per_category gs.current_category =
        gs.tasks_completed_per_category gs.current_category + 1 ∧
      gs1.current_player_index =
        (gs.current_player_index + 1) % players_count_for gs.game_type ∧
      (sig = true ↔
        gs.tasks_completed_per_category gs.current_category + 1 ≥ 20) := by
  by_cases hg : ct.gender = "common"
  · refine ⟨_, _, handle_eq_common gs ct htask (by simp [hg]), ?_, ?_, ?_, ?_⟩
    · simp [hg]
    · simp
    · rfl
    · simp
  · refine ⟨_, _, handle_eq_gender gs ct p htask hplayer (by simp [hg]), ?_, ?_, ?_, ?_⟩
    · simp [hg]
    · simp
    · rfl
    · simp

/-- Witness for C1: advancing the fresh 2couples session holding the
common task succeeds. -/
theorem claim_C1_witness :
    ∃ gs1 sig, handle_task_completed gs_with_common_task = some (gs1, sig) := by
  obtain ⟨gs1, sig, h, -, -, -, -⟩ := claim_C1_turn_advance gs_with_common_task
    task_common_c1 player_m rfl (by decide)
  exact ⟨gs1, sig, h⟩

/-- A successful turn advance keeps the roster and the game type and steps
the player index modulo the game type's player count. -/
theorem handle_task_completed_players (gs gs1 : GameState) (sig : Bool)
    (h : handle_task_completed gs = some (gs1, sig)) :
    gs1.players = gs.players ∧ gs1.game_type = gs.game_type ∧
      gs1.current_player_index =
        (gs.current_player_index + 1) % players_count_for gs.game_type := by
  cases htask : gs.current_task with
  | none =>
    unfold handle_task_completed at h
    rw [htask] at h
    exact absurd h (by simp)
  | some ct =>
    by_cases hg : (ct.gender == "common") = true
    · rw [handle_eq_common gs ct htask hg] at h
      injection h with h
      injection h with h1 h2
      subst h1
      exact ⟨rfl, rfl, rfl⟩
    · have hg' : (ct.gender == "common") = false := by simpa using hg
      cases hp : gs.players.get? gs.current_player_index with
      | none =>
        unfold handle_task_completed at h
        rw [htask] at h
        dsimp only at h
        rw [hg', hp] at h
        exact absurd h (by simp)
      | some p =>
        rw [handle_eq_gender gs ct p htask hp hg'] at h
        injection h with h
        injection h with h1 h2
        subst h1
        exact ⟨rfl, rfl, rfl⟩

/-- Every state reachable from quick-start keeps the initial roster and
game type, and its player index is below the game type's player count. -/
theorem reachable_invariant (game_type : String) (m : Option String)
    (gs : GameState) (h : ReachableState game_type m gs) :
    gs.players = default_players game_type ∧ gs.game_type = game_type ∧
      gs.current_player_index < players_count_for game_type := by
  induction h with
  | init =>
    refine ⟨rfl, rfl, ?_⟩
    show 0 < players_count_for game_type
    unfold players_count_for
    split <;> omega
  | draw gs t hr ih => exact ⟨ih.1, ih.2.1, ih.2.2⟩
  | advance gs gs1 sig hr heq ih =>
    obtain ⟨hp, hgt, hidx⟩ := handle_task_completed_players gs gs1 sig heq
    refine ⟨hp.trans ih.1, hgt.trans ih.2.1, ?_⟩
    rw [hidx, ih.2.1]
    refine Nat.mod_lt _ ?_
    unfold players_count_for
    split <;> omega

/-- Claim C2: for the three game types, the player index of every session
reachable from quick-start by turn advances stays below the roster
length (4 for 2couples, 3 for fmf and mfm). -/
theorem claim_C2_player_index_invariant (game_type : String)
    (m : Option String) (gs : GameState)
    (hgt : game_type = "2couples" ∨ game_type = "fmf" ∨ game_type = "mfm")
    (h : ReachableState game_type m gs) :
    gs.current_player_index < gs.players.length := by
  obtain ⟨hp, -, hidx⟩ := reachable_invariant game_type m gs h
  rw [hp]
  have hlen : (default_players game_type).length = players_count_for game_type := by
    rcases hgt with rfl | rfl | rfl <;> rfl
  rw [hlen]
  exact hidx

/-- Witness for C2: the fresh fmf quick-start session has its index in
range. -/
theorem claim_C2_witness :
    (quick_start_game "fmf" none).current_player_index <
      (quick_start_game "fmf" none).players.length :=
  claim_C2_player_index_invariant "fmf" none _ (Or.inr (Or.inl rfl))
    ReachableState.init

/-- `get_next_task` returns no task exactly when the pool it draws from is
empty. -/
theorem get_next_task_none_iff (db : List TaskRow) (gs : GameState)
    (user_id : Option Int) (pool : List TaskRow)
    (hpool : next_task_pool db gs user_id = some pool) :
    ∀ choice : List TaskRow → TaskRow,
      (get_next_task db gs user_id choice = some none ↔ pool = []) := by
  intro choice
  unfold get_next_task
  rw [hpool]
  by_cases h : pool.isEmpty
  · simp [h, List.isEmpty_iff.mp h]
  · have h' : pool ≠ [] := by simpa [List.isEmpty_iff] using h
    simp [h, h']

/-- Claim C3: next-task selection pools the mode-dependent store fetch for
the acting player's gender with the fetch for common, strips the ids
already used in those two buckets, and yields no task exactly when every
task of both fetches is already used — in particular, once an eligible
pool is fully drawn and no common task remains, the draw returns none. -/
theorem claim_C3_next_task_exhaustion (db : List TaskRow) (gs : GameState)
    (user_id : Option Int) (p : Player)
    (hplayer : gs.players.get? gs.current_player_index = some p) :
    ∀ choice : List TaskRow → TaskRow,
      (get_next_task db gs user_id choice = some none ↔
        ((∀ t ∈ (if gs.game_mode = "basic"
            then get_base_tasks_by_category_gender_and_type db
              gs.current_category p.gender gs.game_type
            else get_extended_tasks_by_type db gs.current_category p.gender
              gs.game_type user_id),
          t.id ∈ gs.used_tasks gs.current_category p.gender) ∧
        (∀ t ∈ (if gs.game_mode = "basic"
            then get_base_tasks_by_category_gender_and_type db
              gs.current_category "common" gs.game_type
            else get_extended_tasks_by_type db gs.current_category "common"
              gs.game_type user_id),
          t.id ∈ gs.used_tasks gs.current_category "common"))) := by
  intro choice
  have hpool : next_task_pool db gs user_id = some (
      (if gs.game_mode == "basic" then
          get_base_tasks_by_category_gender_and_type db gs.current_category
            p.gender gs.game_type
        else
          get_extended_tasks_by_type db gs.current_category p.gender
            gs.game_type user_id).filter (fun t =>
              !((gs.used_tasks gs.current_category p.gender).contains t.id)) ++
      (if gs.game_mode == "basic" then
          get_base_tasks_by_category_gender_and_type db gs.current_category
            "common" gs.game_type
        else
          get_extended_tasks_by_type db gs.current_category "common"
            gs.game_type user_id).filter (fun t =>
              !((gs.used_tasks gs.current_category "common").contains t.id))) := by
    unfold next_task_pool
    rw [hplayer]
  rw [get_next_task_none_iff db gs user_id _ hpool choice]
  by_cases hmode : gs.game_mode = "basic"
  · have hmb : (gs.game_mode == "basic") = true := by simp [hmode]
    simp only [hmb, hmode, if_true, if_pos]
    rw [List.append_eq_nil, List.filter_eq_nil_iff, List.filter_eq_nil_iff]
    simp [List.elem_iff]
  · have hmb : (gs.game_mode == "basic") = false := by simp [hmode]
    simp only [hmb, hmode, Bool.false_eq_true, if_false]
    rw [List.append_eq_nil, List.filter_eq_nil_iff, List.filter_eq_nil_iff]
    simp [List.elem_iff]

/-- Witness for C3, scenario B: with exactly the two flirt/male base tasks
in store, both already drawn, and no common task, the draw returns
none. -/
theorem claim_C3_witness :
    get_next_task [task_base_b1, task_base_b2] gs_flirt_used none
      first_choice = some none :=
  (claim_C3_next_task_exhaustion [task_base_b1, task_base_b2] gs_flirt_used
    none player_m (by decide) first_choice).mpr (by decide)
